import Mathlib

/-!
Shallow embedding of the loss-ratio dashboard pipeline
(`create_data.py` and `app.py`) and proofs about it.

Tables are lists of structure rows; pandas float columns are modelled
as exact rationals, with the IEEE-754 special values that `pandas`
division can produce (`NaN`, `±inf`) made explicit by the type `PVal`.
Calendar dates are modelled by order-preserving integer encodings:
`full_date` as a day ordinal and the synthesized `month_start_date`
as `year * 100 + month`, which is strictly monotone in (year, month)
for months 1..12, so every date comparison made by the code is
preserved exactly.
-/

/-- Result of a pandas float computation: either a finite value (modelled
exactly as a rational) or one of the IEEE special values that division by
zero produces. -/
inductive PVal where
  | finite (q : ℚ)
  | nan
  | posInf
  | negInf
deriving DecidableEq

/-- Whether a pandas float value is finite (not NaN and not ±inf). -/
def PVal.isFinite : PVal → Bool
  | .finite _ => true
  | _ => false

/-- IEEE-754 division of two finite floats, as performed by
`pandas`/`numpy` on float64 columns: a nonzero value divided by zero is
a signed infinity and `0 / 0` is NaN; otherwise the exact quotient. -/
def pdiv (a b : ℚ) : PVal :=
  if b = 0 then
    if a = 0 then PVal.nan
    else if 0 < a then PVal.posInf
    else PVal.negInf
  else PVal.finite (a / b)

/-- IEEE-754 subtraction extended to the special values (used for
`development_impact = overall_developed_lr - overall_reported_lr`). -/
def psub : PVal → PVal → PVal
  | PVal.finite a, PVal.finite b => PVal.finite (a - b)
  | PVal.nan, _ => PVal.nan
  | _, PVal.nan => PVal.nan
  | PVal.posInf, PVal.posInf => PVal.nan
  | PVal.posInf, _ => PVal.posInf
  | PVal.negInf, PVal.negInf => PVal.nan
  | PVal.negInf, _ => PVal.negInf
  | PVal.finite _, PVal.posInf => PVal.negInf
  | PVal.finite _, PVal.negInf => PVal.posInf

/-- One row of `dim_date.csv` (`create_data.py`, "Create Date Dimension").
`full_date` is the day ordinal of the calendar date. -/
structure DateRow where
  date_key : Nat
  full_date : Nat
  year : Nat
  quarter : String
  month : Nat
  month_name : String
deriving DecidableEq

/-- One row of `dim_business_line.csv`. -/
structure LineRow where
  business_line_key : Nat
  line_name : String
deriving DecidableEq

/-- One row of `dim_region.csv`. -/
structure RegionRow where
  region_key : Nat
  region_name : String
deriving DecidableEq

/-- One row of `fact_financials.csv`: three foreign keys plus the three
monetary columns. -/
structure FactRow where
  date_key : Nat
  business_line_key : Nat
  region_key : Nat
  earned_premium : ℚ
  incurred_loss : ℚ
  developed_loss : ℚ
deriving DecidableEq

/-- One row of the merged DataFrame `df` built in `app.py` by the three
`pd.merge` calls: fact columns together with the dimension attributes. -/
structure JoinedRow where
  date_key : Nat
  business_line_key : Nat
  region_key : Nat
  earned_premium : ℚ
  incurred_loss : ℚ
  developed_loss : ℚ
  full_date : Nat
  year : Nat
  quarter : String
  month : Nat
  month_name : String
  line_name : String
  region_name : String
deriving DecidableEq

/-- The three successive inner merges of `app.py` lines 21-23:
`pd.merge(fact_financials, dim_date, on='date_key')`, then with
`dim_business_line` on `business_line_key`, then with `dim_region` on
`region_key`.  An inner merge emits one output row per pair of rows that
agree on the key, and emits nothing for a fact row with no match. -/
def join3 (facts : List FactRow) (dd : List DateRow) (dl : List LineRow)
    (dr : List RegionRow) : List JoinedRow :=
  facts.flatMap fun f =>
    (dd.filter fun d => d.date_key == f.date_key).flatMap fun d =>
      (dl.filter fun l => l.business_line_key == f.business_line_key).flatMap fun l =>
        (dr.filter fun r => r.region_key == f.region_key).map fun r =>
          { date_key := f.date_key
            business_line_key := f.business_line_key
            region_key := f.region_key
            earned_premium := f.earned_premium
            incurred_loss := f.incurred_loss
            developed_loss := f.developed_loss
            full_date := d.full_date
            year := d.year
            quarter := d.quarter
            month := d.month
            month_name := d.month_name
            line_name := l.line_name
            region_name := r.region_name }

/-- Grouping key of `df.groupby(['year', 'month', 'month_name',
'line_name', 'region_name'])` in `app.py` line 29. -/
def monthKey (r : JoinedRow) : Nat × Nat × String × String × String :=
  (r.year, r.month, r.month_name, r.line_name, r.region_name)

/-- One row of `df_monthly` (`app.py` lines 29-40): the per-bucket sums of
the three monetary columns, the synthesized `month_start_date`
(first day of the bucket's month, encoded order-isomorphically as
`year * 100 + month`), and the two per-row loss ratios. -/
structure MonthlyRow where
  year : Nat
  month : Nat
  month_name : String
  line_name : String
  region_name : String
  earned_premium : ℚ
  incurred_loss : ℚ
  developed_loss : ℚ
  month_start_date : Nat
  reported_loss_ratio : PVal
  developed_loss_ratio : PVal
deriving DecidableEq

/-- The `df_monthly` table of `app.py` lines 29-40: group the joined rows
by `monthKey`, sum `earned_premium`, `incurred_loss`, `developed_loss`
within each bucket, synthesize `month_start_date`, and compute
`reported_loss_ratio = incurred_loss / earned_premium` and
`developed_loss_ratio = developed_loss / earned_premium` by plain column
division (no zero-denominator guard appears in the source).  pandas emits
the buckets sorted by key; here they are emitted in `dedup` order, which
is a permutation of that — none of the properties proved below depend on
bucket order. -/
def df_monthly (joined : List JoinedRow) : List MonthlyRow :=
  ((joined.map monthKey).dedup).map fun k =>
    let grp := joined.filter fun r => monthKey r == k
    let ep := (grp.map (·.earned_premium)).sum
    let il := (grp.map (·.incurred_loss)).sum
    let dl := (grp.map (·.developed_loss)).sum
    { year := k.1
      month := k.2.1
      month_name := k.2.2.1
      line_name := k.2.2.2.1
      region_name := k.2.2.2.2
      earned_premium := ep
      incurred_loss := il
      developed_loss := dl
      month_start_date := k.1 * 100 + k.2.1
      reported_loss_ratio := pdiv il ep
      developed_loss_ratio := pdiv dl ep }

/-- The `filtered_df` selection of `update_dashboard` (`app.py` lines
171-176): keep the monthly rows whose `line_name` is in the selected
lines, whose `region_name` is in the selected regions, and whose
`month_start_date` lies in the inclusive `[start_date, end_date]` range.
`isin` of an empty selection matches nothing. -/
def filtered_df (dfm : List MonthlyRow) (selected_lines selected_regions : List String)
    (start_date end_date : Nat) : List MonthlyRow :=
  dfm.filter fun r =>
    decide (r.line_name ∈ selected_lines) && decide (r.region_name ∈ selected_regions)
      && decide (start_date ≤ r.month_start_date) && decide (r.month_start_date ≤ end_date)

/-- The KPI computation of `update_dashboard` (`app.py` lines 178-184):
if the filtered frame is non-empty, `overall_reported_lr` and
`overall_developed_lr` are the column-sum quotients and
`development_impact` their difference; otherwise all three are set to
the plain number `0`. -/
def update_kpis (fdf : List MonthlyRow) : PVal × PVal × PVal :=
  if fdf.isEmpty then (PVal.finite 0, PVal.finite 0, PVal.finite 0)
  else
    let ep := (fdf.map (·.earned_premium)).sum
    let overall_reported_lr := pdiv ((fdf.map (·.incurred_loss)).sum) ep
    let overall_developed_lr := pdiv ((fdf.map (·.developed_loss)).sum) ep
    (overall_reported_lr, overall_developed_lr,
      psub overall_developed_lr overall_reported_lr)

/-- Numerator column chosen by `update_dashboard` (`app.py` lines
202-206): `incurred_loss` when the methodology radio value is
`reported_loss_ratio`, otherwise `developed_loss`. -/
def lossColVal (loss_ratio_type : String) (r : MonthlyRow) : ℚ :=
  if loss_ratio_type = "reported_loss_ratio" then r.incurred_loss else r.developed_loss

/-- One row of `comparison_df`. -/
structure CompRow where
  line_name : String
  average_loss_ratio : ℚ
deriving DecidableEq

/-- Code points of a string, used to compare strings lexicographically. -/
def strKey (s : String) : List ℕ := s.data.map (fun c => c.toNat)

/-- Lexicographic code-point order on strings, the order pandas uses when
`groupby('line_name')` sorts its group keys. -/
def strLe (a b : String) : Prop := strKey a ≤ strKey b

instance : DecidableRel strLe := fun a b =>
  inferInstanceAs (Decidable (strKey a ≤ strKey b))

instance : IsTotal String strLe := ⟨fun a b => le_total (strKey a) (strKey b)⟩

instance : IsTrans String strLe := ⟨fun a _ _ h h' => le_trans (a := strKey a) h h'⟩

/-- Ascending comparison on `average_loss_ratio`, the sort key of
`comparison_df.sort_values('average_loss_ratio', ascending=False)`. -/
def ratioLe (a b : CompRow) : Prop := a.average_loss_ratio ≤ b.average_loss_ratio

instance : DecidableRel ratioLe := fun a b =>
  inferInstanceAs (Decidable (a.average_loss_ratio ≤ b.average_loss_ratio))

instance : IsTotal CompRow ratioLe :=
  ⟨fun a b => le_total a.average_loss_ratio b.average_loss_ratio⟩

instance : IsTrans CompRow ratioLe := ⟨fun _ _ _ hab hbc => le_trans hab hbc⟩

/-- The `comparison_df` computed in `update_dashboard` (`app.py` lines
207-212): group the filtered frame by `line_name` (pandas sorts the group
keys ascending), compute per line `sum(loss_col) / sum(earned_premium)`
with an explicit `0` when the premium sum is zero, then
`sort_values('average_loss_ratio', ascending=False)`.  This definition is
the per-line lambda of `app.py` line 207:
`(x[loss_col].sum() / x['earned_premium'].sum()) if x['earned_premium'].sum() != 0 else 0`. -/
def line_avg (fdf : List MonthlyRow) (loss_ratio_type : String) (ln : String) : ℚ :=
  let grp := fdf.filter fun r => r.line_name == ln
  let epsum := (grp.map (·.earned_premium)).sum
  if epsum ≠ 0 then ((grp.map (lossColVal loss_ratio_type)).sum) / epsum else 0

/-- Rows of `comparison_df` before sorting: pandas `groupby('line_name')`
emits one row per distinct line name, names sorted ascending. -/
def comparison_groups (fdf : List MonthlyRow) (loss_ratio_type : String) : List CompRow :=
  (List.insertionSort strLe (fdf.map (·.line_name)).dedup).map fun ln =>
    { line_name := ln, average_loss_ratio := line_avg fdf loss_ratio_type ln }

/-- The final `comparison_df` with
`sort_values('average_loss_ratio', ascending=False)` applied.  pandas
implements the descending sort as the reverse of an ascending argsort
(`nargsort` computes the ascending indexer and reverses it when
`ascending=False`; the underlying numpy sort falls back to insertion
sort, hence is stable, at these input sizes), which is modelled here as
reversing a stable ascending insertion sort. -/
def comparison_df (fdf : List MonthlyRow) (loss_ratio_type : String) : List CompRow :=
  (List.insertionSort ratioLe (comparison_groups fdf loss_ratio_type)).reverse

/-- The key frame `df_keys` of `create_data.py` lines 57-61:
`pd.MultiIndex.from_product([dim_date['date_key'],
dim_business_line['business_line_key'], dim_region['region_key']])`,
i.e. the full cross-product of the three key columns, first component
varying slowest. -/
def df_keys (dateKeys lineKeys regionKeys : List Nat) : List (Nat × Nat × Nat) :=
  dateKeys ×ˢ (lineKeys ×ˢ regionKeys)

/-- Modulus of the modelled pseudo-random stream. -/
def LCG_MOD : Nat := 2147483648

/-- One step of the modelled pseudo-random stream.  It stands for numpy's
global Mersenne-Twister stream: all that the claims below use is that
each draw is a pure function of the current state. -/
def lcgNext (s : Nat) : Nat := (1103515245 * s + 12345) % LCG_MOD

/-- State of numpy's global random generator. -/
structure RngState where
  s : Nat
deriving DecidableEq

/-- The call `np.random.seed(42)` (`create_data.py` line 65): it resets
the global generator state to a value determined by the seed alone,
discarding whatever state was there before. -/
def npSeed (n : Nat) : RngState := ⟨n % LCG_MOD⟩

/-- One raw draw in `[0, 1)` from the generator state. -/
def draw (g : RngState) : ℚ × RngState :=
  let s := lcgNext g.s
  ((s : ℚ) / (LCG_MOD : ℚ), ⟨s⟩)

/-- A vector of `n` raw draws, threading the generator state. -/
def drawN : RngState → Nat → List ℚ × RngState
  | g, 0 => ([], g)
  | g, n + 1 =>
    let p := draw g
    let rest := drawN p.2 n
    (p.1 :: rest.1, rest.2)

/-- Transform of a unit draw into `np.random.uniform(lo, hi)`. -/
def uniformFromUnit (lo hi u : ℚ) : ℚ := lo + (hi - lo) * u

/-- Transform of a unit draw standing for `np.random.normal(mu, sigma)`:
a deterministic value centred at `mu` with spread `sigma`.  The exact
distribution shape is irrelevant to the claims proved here; what matters
is that the value is a pure function of the stream. -/
def normalFromUnit (mu sigma u : ℚ) : ℚ := mu + sigma * (2 * u - 1)

/-- Rational stand-in for the float64 constant `np.pi`. -/
def piQ : ℚ := 3141592653589793 / 1000000000000000

/-- Rational stand-in for float64 `np.sin` (truncated Taylor series);
deterministic like the original. -/
def sinQ (x : ℚ) : ℚ := x - x ^ 3 / 6 + x ^ 5 / 120 - x ^ 7 / 5040

/-- The `base_lr` parameter of the `BUSINESS_LINES` configuration
(`create_data.py` lines 8-13), looked up by line name.  In the script
the names always come from the same dict, so no lookup can miss; the
final branch therefore corresponds to `'Commercial Property'`. -/
def base_lr (line : String) : ℚ :=
  if line = "Commercial Auto" then 65 / 100
  else if line = "General Liability" then 75 / 100
  else if line = "Workers Compensation" then 55 / 100
  else 45 / 100

/-- The `dev_factor` parameter of the `BUSINESS_LINES` configuration. -/
def dev_factor (line : String) : ℚ :=
  if line = "Commercial Auto" then 115 / 100
  else if line = "General Liability" then 130 / 100
  else if line = "Workers Compensation" then 110 / 100
  else 105 / 100

/-- The seasonal factor `1 + np.sin(month * 2 * np.pi / 12) * 0.1` of
`create_data.py` line 79. -/
def seasonal_factor (month : Nat) : ℚ :=
  1 + sinQ ((month : ℚ) * 2 * piQ / 12) * (1 / 10)

/-- The trend factor `1 + (full_date - min full_date).days / 1000 * 0.05`
of `create_data.py` line 81, with dates as day ordinals. -/
def trend_factor (start_date full_date : Nat) : ℚ :=
  1 + ((full_date : ℚ) - (start_date : ℚ)) / 1000 * (5 / 100)

/-- Rounding to 2 decimal places with ties to even, as performed by
`fact_financials.round(2)` (`create_data.py` line 93). -/
def round2 (q : ℚ) : ℚ :=
  let x := q * 100
  let lo : ℤ := ⌊x⌋
  let fr : ℚ := x - (lo : ℚ)
  let n : ℤ :=
    if fr < 1 / 2 then lo
    else if 1 / 2 < fr then lo + 1
    else if lo % 2 = 0 then lo else lo + 1
  (n : ℚ) / 100

/-- The merged generation frame: one entry per (date, line, region)
dimension-row combination, in `df_keys` order.  Because every key of
`df_keys` comes from the dimension tables themselves and dimension keys
are unique, the merges of `create_data.py` lines 73-75 attach exactly
one dimension row of each kind to each key triple, which is what the
row product yields directly. -/
def factInputs (dd : List DateRow) (dl : List LineRow) (dr : List RegionRow) :
    List (DateRow × LineRow × RegionRow) :=
  dd ×ˢ (dl ×ˢ dr)

/-- The value `df_merged['full_date'].min()` of `create_data.py` line 81. -/
def minFullDate (dd : List DateRow) : Nat :=
  match dd.map (·.full_date) with
  | [] => 0
  | x :: xs => xs.foldl min x

/-- Assembly of the fact rows (`create_data.py` lines 69-94): row `i`
pairs key combination `i` with the `i`-th premium, noise and
development-noise draws, computes
`incurred_loss = earned_premium * base_lr * seasonal * noise * trend` and
`developed_loss = incurred_loss * dev_factor * dev_noise`, and rounds the
three monetary fields to 2 decimals as the final step. -/
def buildFactRows (start_date : Nat) :
    List (DateRow × LineRow × RegionRow) → List ℚ → List ℚ → List ℚ → List FactRow
  | t :: ts, p :: ps, u :: us, v :: vs =>
    let il := p * base_lr t.2.1.line_name * seasonal_factor t.1.month * u
      * trend_factor start_date t.1.full_date
    let dl := il * dev_factor t.2.1.line_name * v
    { date_key := t.1.date_key
      business_line_key := t.2.1.business_line_key
      region_key := t.2.2.region_key
      earned_premium := round2 p
      incurred_loss := round2 il
      developed_loss := round2 dl } :: buildFactRows start_date ts ps us vs
  | _, _, _, _ => []

/-- The complete Fact Generator run of `create_data.py` lines 57-94:
seed the global generator with 42 (discarding the incoming state `g0`),
build the key cross-product, draw the premium vector, then the loss
noise vector, then the development noise vector, and assemble the
`fact_financials` rows. -/
def fact_financials (dd : List DateRow) (dl : List LineRow) (dr : List RegionRow)
    (g0 : RngState) : List FactRow :=
  let _ := g0
  let g := npSeed 42
  let inputs := factInputs dd dl dr
  let n := inputs.length
  let prem := drawN g n
  let premiums := prem.1.map (uniformFromUnit 5000 15000)
  let noise := drawN prem.2 n
  let noises := noise.1.map (normalFromUnit 1 (5 / 100))
  let devnoise := drawN noise.2 n
  let devnoises := devnoise.1.map (normalFromUnit 1 (2 / 100))
  buildFactRows (minFullDate dd) inputs premiums noises devnoises

/-!  Helper lemmas. -/

lemma pdiv_zero_not_finite (a : ℚ) : (pdiv a 0).isFinite = false := by
  simp only [pdiv, if_pos rfl]
  split_ifs <;> rfl

lemma psub_not_finite {a b : PVal} (ha : a.isFinite = false) (hb : b.isFinite = false) :
    (psub a b).isFinite = false := by
  cases a <;> cases b <;> simp [PVal.isFinite, psub] at *

lemma sum_ite_eq_zero_of_not_mem {K : Type} [DecidableEq K] (c : ℚ) (a : K)
    (ks : List K) (h : a ∉ ks) :
    (ks.map fun k => if a = k then c else 0).sum = 0 := by
  apply List.sum_eq_zero
  intro x hx
  rcases List.mem_map.mp hx with ⟨k, hk, rfl⟩
  have hne : a ≠ k := fun e => h (e ▸ hk)
  simp [hne]

lemma sum_ite_eq_of_nodup {K : Type} [DecidableEq K] (c : ℚ) (a : K) :
    ∀ ks : List K, ks.Nodup → a ∈ ks →
      (ks.map fun k => if a = k then c else 0).sum = c := by
  intro ks
  induction ks with
  | nil => intro _ h; exact absurd h (List.not_mem_nil a)
  | cons k ks ih =>
    intro hnd hmem
    rcases List.nodup_cons.mp hnd with ⟨hk, hnd'⟩
    by_cases hak : a = k
    · subst hak
      rw [List.map_cons, List.sum_cons, if_pos rfl,
        sum_ite_eq_zero_of_not_mem c a ks hk, add_zero]
    · have ha : a ∈ ks := by
        rcases List.mem_cons.mp hmem with h | h
        · exact absurd h hak
        · exact h
      simp only [List.map_cons, List.sum_cons, if_neg hak]
      rw [ih hnd' ha, zero_add]

/-- Summing a quantity bucket-by-bucket over a complete, duplicate-free
list of bucket keys gives the same total as summing it row-by-row. -/
lemma groupby_sum_partition {R K : Type} [BEq K] [LawfulBEq K] [DecidableEq K]
    (key : R → K) (f : R → ℚ) :
    ∀ (rows : List R) (ks : List K), ks.Nodup → (∀ r ∈ rows, key r ∈ ks) →
      (ks.map fun k => ((rows.filter fun r => key r == k).map f).sum).sum
        = (rows.map f).sum := by
  intro rows
  induction rows with
  | nil =>
    intro ks _ _
    simp
  | cons r rs ih =>
    intro ks hnd hmem
    have hks : ∀ x ∈ rs, key x ∈ ks := fun x hx => hmem x (List.mem_cons_of_mem r hx)
    have hkey : key r ∈ ks := hmem r (List.mem_cons_self r rs)
    have step : ∀ k : K,
        (((r :: rs).filter fun x => key x == k).map f).sum
          = (if key r = k then f r else 0) + ((rs.filter fun x => key x == k).map f).sum := by
      intro k
      by_cases h : key r = k
      · simp [List.filter_cons, h]
      · simp [List.filter_cons, h]
    simp only [step]
    rw [List.sum_map_add, sum_ite_eq_of_nodup (f r) (key r) ks hnd hkey, ih ks hnd hks]
    simp

/-- Aggregating the joined table by month buckets preserves the total
earned premium. -/
lemma df_monthly_sum_premium (joined : List JoinedRow) :
    ((df_monthly joined).map (·.earned_premium)).sum
      = (joined.map (·.earned_premium)).sum := by
  have h := groupby_sum_partition monthKey (fun r : JoinedRow => r.earned_premium)
    joined ((joined.map monthKey).dedup) (List.nodup_dedup _)
    (fun r hr => List.mem_dedup.mpr (List.mem_map_of_mem monthKey hr))
  simpa [df_monthly, List.map_map, Function.comp_def] using h

/-- Unfolding of `join3` on a cons cell. -/
lemma join3_cons (f : FactRow) (fs : List FactRow) (dd : List DateRow)
    (dl : List LineRow) (dr : List RegionRow) :
    join3 (f :: fs) dd dl dr =
      ((dd.filter fun d => d.date_key == f.date_key).flatMap fun d =>
        (dl.filter fun l => l.business_line_key == f.business_line_key).flatMap fun l =>
          (dr.filter fun r => r.region_key == f.region_key).map fun r =>
            { date_key := f.date_key
              business_line_key := f.business_line_key
              region_key := f.region_key
              earned_premium := f.earned_premium
              incurred_loss := f.incurred_loss
              developed_loss := f.developed_loss
              full_date := d.full_date
              year := d.year
              quarter := d.quarter
              month := d.month
              month_name := d.month_name
              line_name := l.line_name
              region_name := r.region_name }) ++ join3 fs dd dl dr := by
  simp [join3]

/-- When every foreign key of every fact row matches exactly one dimension
row, the inner join emits exactly one output row per fact row, carrying
that row's premium, so the joined total premium equals the fact total. -/
lemma join3_sum_premium (dd : List DateRow) (dl : List LineRow) (dr : List RegionRow) :
    ∀ facts : List FactRow,
      (∀ f ∈ facts, (dd.filter fun d => d.date_key == f.date_key).length = 1) →
      (∀ f ∈ facts, (dl.filter fun l => l.business_line_key == f.business_line_key).length = 1) →
      (∀ f ∈ facts, (dr.filter fun r => r.region_key == f.region_key).length = 1) →
      ((join3 facts dd dl dr).map (·.earned_premium)).sum
        = (facts.map (·.earned_premium)).sum := by
  intro facts
  induction facts with
  | nil => intro _ _ _; simp [join3]
  | cons f fs ih =>
    intro h1 h2 h3
    rcases List.length_eq_one.mp (h1 f (List.mem_cons_self f fs)) with ⟨d, hd⟩
    rcases List.length_eq_one.mp (h2 f (List.mem_cons_self f fs)) with ⟨l, hl⟩
    rcases List.length_eq_one.mp (h3 f (List.mem_cons_self f fs)) with ⟨r, hr⟩
    have t1 : ∀ x ∈ fs, (dd.filter fun d => d.date_key == x.date_key).length = 1 :=
      fun x hx => h1 x (List.mem_cons_of_mem f hx)
    have t2 : ∀ x ∈ fs,
        (dl.filter fun l => l.business_line_key == x.business_line_key).length = 1 :=
      fun x hx => h2 x (List.mem_cons_of_mem f hx)
    have t3 : ∀ x ∈ fs, (dr.filter fun r => r.region_key == x.region_key).length = 1 :=
      fun x hx => h3 x (List.mem_cons_of_mem f hx)
    rw [join3_cons, hd, hl, hr]
    simp only [List.flatMap_cons, List.flatMap_nil, List.append_nil, List.map_cons,
      List.map_nil, List.map_append, List.sum_append, List.sum_cons, List.sum_nil]
    rw [ih t1 t2 t3]
    simp

/-- Whether a fact row has a match in all three dimension tables. -/
def has_dimension_match (dd : List DateRow) (dl : List LineRow) (dr : List RegionRow)
    (f : FactRow) : Bool :=
  (dd.any fun d => d.date_key == f.date_key)
    && (dl.any fun l => l.business_line_key == f.business_line_key)
    && (dr.any fun r => r.region_key == f.region_key)

lemma flatMap_const_nil {α β : Type} (l : List α) :
    (l.flatMap fun _ => ([] : List β)) = [] := by
  induction l <;> simp_all

/-- C3 (amended): the three `pd.merge` calls of `app.py` lines 21-23 are
default inner joins, so a fact row with no match in some dimension table
is silently dropped: the join of any fact table equals the join of that
table restricted to its matched rows, and no error is ever raised (the
join is a total function). -/
theorem c3_unmatched_rows_silently_dropped (dd : List DateRow) (dl : List LineRow)
    (dr : List RegionRow) :
    ∀ facts : List FactRow,
      join3 facts dd dl dr = join3 (facts.filter (has_dimension_match dd dl dr)) dd dl dr := by
  intro facts
  induction facts with
  | nil => rfl
  | cons f fs ih =>
    by_cases hm : has_dimension_match dd dl dr f = true
    · rw [join3_cons, List.filter_cons, if_pos hm, join3_cons, ih]
    · rw [List.filter_cons, if_neg hm]
      have hm' := eq_false_of_ne_true hm
      unfold has_dimension_match at hm'
      rw [join3_cons, ih]
      rcases Bool.and_eq_false_iff.mp hm' with h | h
      · rcases Bool.and_eq_false_iff.mp h with h' | h'
        · have hfd : (dd.filter fun d => d.date_key == f.date_key) = [] := by
            apply List.filter_eq_nil_iff.mpr
            intro a ha
            have hx := List.any_eq_false.mp h' a ha
            simp [hx]
          rw [hfd]
          simp
        · have hfl : (dl.filter fun l => l.business_line_key == f.business_line_key) = [] := by
            apply List.filter_eq_nil_iff.mpr
            intro a ha
            have hx := List.any_eq_false.mp h' a ha
            simp [hx]
          rw [hfl]
          simp [flatMap_const_nil]
      · have hfr : (dr.filter fun r => r.region_key == f.region_key) = [] := by
          apply List.filter_eq_nil_iff.mpr
          intro a ha
          have hx := List.any_eq_false.mp h a ha
          simp [hx]
        rw [hfr]
        simp [flatMap_const_nil]

/-- Dimension tables for the C3 counterexample. -/
def c3dates : List DateRow := [⟨20220101, 0, 2022, "Q1", 1, "January"⟩]

/-- Business-line dimension for the C3 counterexample. -/
def c3lines : List LineRow := [⟨1, "Commercial Auto"⟩]

/-- Region dimension for the C3 counterexample. -/
def c3regions : List RegionRow := [⟨1, "West"⟩]

/-- A fact table whose single row references the unknown `date_key`
99999999. -/
def c3facts : List FactRow := [⟨99999999, 1, 1, 100, 50, 60⟩]

/-- C3 counterexample: a fact row with an unknown `date_key` does not
cause any error — the join simply returns normally with the row (and its
100.0 of premium) silently absent from the result, contradicting the
claim that a mismatch is a fatal data-integrity error and that no
unmatched fact row is ever silently dropped. -/
theorem c3_counterexample :
    join3 c3facts c3dates c3lines c3regions = []
      ∧ (c3facts.map (·.earned_premium)).sum = 100
      ∧ c3facts ≠ [] := by
  refine ⟨by decide, ?_, by decide⟩
  norm_num [c3facts]

/-- C7: when every fact row's three foreign keys each match exactly one
dimension row — which is how the generator builds the data — the
join-then-group-by-sum pipeline preserves the total earned premium: the
sum over all rows of `df_monthly` equals the sum over the raw fact
table. -/
theorem c7_join_total_preservation (facts : List FactRow) (dd : List DateRow)
    (dl : List LineRow) (dr : List RegionRow)
    (h1 : ∀ f ∈ facts, (dd.filter fun d => d.date_key == f.date_key).length = 1)
    (h2 : ∀ f ∈ facts, (dl.filter fun l => l.business_line_key == f.business_line_key).length = 1)
    (h3 : ∀ f ∈ facts, (dr.filter fun r => r.region_key == f.region_key).length = 1) :
    ((df_monthly (join3 facts dd dl dr)).map (·.earned_premium)).sum
      = (facts.map (·.earned_premium)).sum := by
  rw [df_monthly_sum_premium]
  exact join3_sum_premium dd dl dr facts h1 h2 h3

/-- Date dimension for the C7 witness. -/
def c7dates : List DateRow :=
  [⟨20220101, 0, 2022, "Q1", 1, "January"⟩, ⟨20220201, 31, 2022, "Q1", 2, "February"⟩]

/-- Business-line dimension for the C7 witness. -/
def c7lines : List LineRow := [⟨1, "Commercial Auto"⟩]

/-- Region dimension for the C7 witness. -/
def c7regions : List RegionRow := [⟨1, "West"⟩]

/-- Fact table for the C7 witness: every key matches exactly one
dimension row. -/
def c7facts : List FactRow :=
  [⟨20220101, 1, 1, 100, 60, 70⟩, ⟨20220201, 1, 1, 200, 50, 55⟩]

/-- Witness for C7 at a concrete dataset. -/
theorem c7_join_total_preservation_witness :
    ((df_monthly (join3 c7facts c7dates c7lines c7regions)).map (·.earned_premium)).sum
      = (c7facts.map (·.earned_premium)).sum :=
  c7_join_total_preservation c7facts c7dates c7lines c7regions
    (by decide) (by decide) (by decide)

/-- C8: an empty business-line selection matches nothing: the filtered
frame has zero rows and all three KPI values are the plain number 0. -/
theorem c8_empty_selection (dfm : List MonthlyRow) (regions : List String) (sd ed : Nat) :
    filtered_df dfm [] regions sd ed = []
      ∧ update_kpis (filtered_df dfm [] regions sd ed)
          = (PVal.finite 0, PVal.finite 0, PVal.finite 0) := by
  have h : filtered_df dfm [] regions sd ed = [] := by
    simp [filtered_df]
  exact ⟨h, by rw [h]; rfl⟩

/-- C9: the Fact Generator is a pure function of the seed: the call
`np.random.seed(42)` resets the global generator state, so whatever
state `g₁`, `g₂` the process random generator was in before two runs
over the same configuration, the two generated `fact_financials` tables
are identical, every monetary value included. -/
theorem c9_generator_deterministic (dd : List DateRow) (dl : List LineRow)
    (dr : List RegionRow) (g₁ g₂ : RngState) :
    fact_financials dd dl dr g₁ = fact_financials dd dl dr g₂ := rfl

/-- C10: an inverted date range (`start_date > end_date`) raises no
validation error; the conjunction of the two inclusive bound
comparisons is unsatisfiable, so the filtered frame is empty and all
three KPIs are 0, exactly as for an empty selection. -/
theorem c10_inverted_range (dfm : List MonthlyRow) (lines regions : List String)
    (sd ed : Nat) (h : ed < sd) :
    filtered_df dfm lines regions sd ed = []
      ∧ update_kpis (filtered_df dfm lines regions sd ed)
          = (PVal.finite 0, PVal.finite 0, PVal.finite 0) := by
  have hf : filtered_df dfm lines regions sd ed = [] := by
    refine List.filter_eq_nil_iff.mpr ?_
    intro r hr
    simp only [Bool.and_eq_true, decide_eq_true_eq]
    rintro ⟨⟨_, hsd⟩, hed⟩
    omega
  exact ⟨hf, by rw [hf]; rfl⟩

/-- Witness for C10 at a concrete inverted range. -/
theorem c10_inverted_range_witness :
    filtered_df [] [] [] 1 0 = []
      ∧ update_kpis (filtered_df [] [] [] 1 0)
          = (PVal.finite 0, PVal.finite 0, PVal.finite 0) :=
  c10_inverted_range [] [] [] 1 0 (by decide)

/-- C1 (amended): the per-row ratio computation of `app.py` lines 39-40
divides without any zero-denominator guard, so a monthly bucket whose
`earned_premium` is 0 gets non-finite ratio fields (NaN when the loss
sum is 0 as well, a signed infinity otherwise), not 0. -/
theorem c1_zero_premium_ratios_not_finite (joined : List JoinedRow) (m : MonthlyRow)
    (hm : m ∈ df_monthly joined) (h : m.earned_premium = 0) :
    m.reported_loss_ratio.isFinite = false ∧ m.developed_loss_ratio.isFinite = false := by
  rcases List.mem_map.mp hm with ⟨k, hk, rfl⟩
  dsimp only at h ⊢
  rw [h]
  exact ⟨pdiv_zero_not_finite _, pdiv_zero_not_finite _⟩

/-- Joined row with zero earned premium for the C1 examples. -/
def c1joined : JoinedRow :=
  ⟨20220101, 1, 1, 0, 1, 1, 0, 2022, "Q1", 1, "January", "Commercial Auto", "West"⟩

/-- The monthly bucket that `df_monthly` produces from `c1joined`. -/
def c1month : MonthlyRow :=
  ⟨2022, 1, "January", "Commercial Auto", "West", 0, 1, 1, 202200 + 1,
    PVal.posInf, PVal.posInf⟩

/-- Witness for the amended C1 on a concrete bucket. -/
theorem c1_zero_premium_ratios_not_finite_witness :
    c1month.reported_loss_ratio.isFinite = false
      ∧ c1month.developed_loss_ratio.isFinite = false :=
  c1_zero_premium_ratios_not_finite [c1joined] c1month
    (by norm_num [df_monthly, monthKey, c1joined, c1month, pdiv]) rfl

/-- Fact table with a zero-premium row for the C1 counterexample. -/
def c1facts : List FactRow := [⟨20220101, 1, 1, 0, 1, 1⟩]

/-- Date dimension for the C1 counterexample. -/
def c1dates : List DateRow := [⟨20220101, 0, 2022, "Q1", 1, "January"⟩]

/-- Business-line dimension for the C1 counterexample. -/
def c1lines : List LineRow := [⟨1, "Commercial Auto"⟩]

/-- Region dimension for the C1 counterexample. -/
def c1regions : List RegionRow := [⟨1, "West"⟩]

/-- C1 counterexample: running the pipeline on a fact table whose only
row has `earned_premium = 0` and `incurred_loss = developed_loss = 1`
yields a monthly bucket whose ratio fields are `+inf`, not `0`, refuting
the claim that zero-premium buckets have both ratio fields equal to 0
and never infinite. -/
theorem c1_counterexample :
    ((df_monthly (join3 c1facts c1dates c1lines c1regions)).map fun m =>
        (m.earned_premium, m.reported_loss_ratio, m.developed_loss_ratio))
      = [(0, PVal.posInf, PVal.posInf)]
    ∧ PVal.posInf ≠ PVal.finite 0 ∧ PVal.posInf.isFinite = false := by
  refine ⟨?_, by decide, rfl⟩
  norm_num [c1facts, c1dates, c1lines, c1regions, join3, df_monthly, monthKey, pdiv]

/-- C2 (amended): the KPI computation guards only on emptiness of the
filtered frame: an empty selection yields the three plain zeros, but a
non-empty selection whose total earned premium is zero yields
non-finite KPI values (the code divides the column sums by zero). -/
theorem c2_kpi_zero_guard (fdf : List MonthlyRow) :
    (fdf = [] → update_kpis fdf = (PVal.finite 0, PVal.finite 0, PVal.finite 0))
    ∧ (fdf ≠ [] → (fdf.map (·.earned_premium)).sum = 0 →
        (update_kpis fdf).1.isFinite = false
        ∧ (update_kpis fdf).2.1.isFinite = false
        ∧ (update_kpis fdf).2.2.isFinite = false) := by
  constructor
  · rintro rfl
    rfl
  · intro hne hsum
    have hie : fdf.isEmpty = false := by
      cases fdf with
      | nil => exact absurd rfl hne
      | cons a l => rfl
    simp only [update_kpis, hie, Bool.false_eq_true, if_false, hsum]
    exact ⟨pdiv_zero_not_finite _, pdiv_zero_not_finite _,
      psub_not_finite (pdiv_zero_not_finite _) (pdiv_zero_not_finite _)⟩

/-- Monthly bucket with zero earned premium for the C2 examples. -/
def c2month : MonthlyRow :=
  ⟨2022, 1, "January", "Commercial Auto", "West", 0, 1, 2, 202200 + 1,
    PVal.posInf, PVal.posInf⟩

/-- Witness for the amended C2: the empty selection gives the three
zeros, and a concrete non-empty zero-premium selection gives non-finite
KPIs. -/
theorem c2_kpi_zero_guard_witness :
    update_kpis [] = (PVal.finite 0, PVal.finite 0, PVal.finite 0)
      ∧ (update_kpis [c2month]).1.isFinite = false
      ∧ (update_kpis [c2month]).2.1.isFinite = false
      ∧ (update_kpis [c2month]).2.2.isFinite = false :=
  ⟨(c2_kpi_zero_guard []).1 rfl,
    (c2_kpi_zero_guard [c2month]).2 (by simp) (by norm_num [c2month])⟩

/-- C2 counterexample: a filter selection holding exactly one bucket
with `earned_premium = 0` is non-empty with total premium zero, and the
code returns `(+inf, +inf, NaN)` for the three KPIs, not `(0, 0, 0)`,
refuting the claim that a selection with zero total earned premium
yields all-zero, finite KPIs. -/
theorem c2_counterexample :
    filtered_df [c2month] ["Commercial Auto"] ["West"] 0 999999 = [c2month]
    ∧ ((filtered_df [c2month] ["Commercial Auto"] ["West"] 0 999999).map
        (·.earned_premium)).sum = 0
    ∧ update_kpis (filtered_df [c2month] ["Commercial Auto"] ["West"] 0 999999)
        = (PVal.posInf, PVal.posInf, PVal.nan)
    ∧ (PVal.posInf, PVal.posInf, PVal.nan)
        ≠ ((PVal.finite 0, PVal.finite 0, PVal.finite 0) : PVal × PVal × PVal) := by
  have hfil : filtered_df [c2month] ["Commercial Auto"] ["West"] 0 999999 = [c2month] := by
    simp [filtered_df, c2month]
  refine ⟨hfil, ?_, ?_, by decide⟩
  · rw [hfil]
    norm_num [c2month]
  · rw [hfil]
    norm_num [update_kpis, c2month, pdiv, psub]

/-- C4 (amended): the per-category comparison has one row per business
line present in the selection, each carrying exactly
`sum(loss_col)/sum(earned_premium)` for that line (0 when the premium
sum is 0), and the rows are ordered by non-increasing average loss
ratio.  The order of tied lines is whatever reversing the stable
ascending sort produces — the name-ascending tie-break of the original
claim does not hold (see the counterexample). -/
theorem c4_comparison_ranking (fdf : List MonthlyRow) (lrt : String) :
    ((comparison_df fdf lrt).map (·.line_name)).Perm ((fdf.map (·.line_name)).dedup)
    ∧ (∀ c ∈ comparison_df fdf lrt, c.average_loss_ratio = line_avg fdf lrt c.line_name)
    ∧ (comparison_df fdf lrt).Pairwise
        (fun a b => b.average_loss_ratio ≤ a.average_loss_ratio) := by
  refine ⟨?_, ?_, ?_⟩
  · rw [comparison_df, List.map_reverse]
    refine (List.reverse_perm _).trans ?_
    refine ((List.perm_insertionSort ratioLe _).map fun c => c.line_name).trans ?_
    have hg : (comparison_groups fdf lrt).map (·.line_name)
        = List.insertionSort strLe ((fdf.map (·.line_name)).dedup) := by
      simp [comparison_groups, List.map_map, Function.comp_def]
    rw [hg]
    exact List.perm_insertionSort strLe _
  · intro c hc
    rw [comparison_df, List.mem_reverse, List.mem_insertionSort] at hc
    rcases List.mem_map.mp hc with ⟨ln, _, rfl⟩
    rfl
  · rw [comparison_df, List.pairwise_reverse]
    exact List.sorted_insertionSort ratioLe _

/-- First tied row for the C4 counterexample: average reported loss
ratio 1. -/
def c4rowA : MonthlyRow :=
  ⟨2022, 1, "January", "Commercial Auto", "West", 100, 100, 60, 202200 + 1,
    PVal.nan, PVal.nan⟩

/-- Second tied row for the C4 counterexample: a later line name with
the same average reported loss ratio 1. -/
def c4rowB : MonthlyRow :=
  ⟨2022, 1, "January", "General Liability", "West", 100, 100, 60, 202200 + 1,
    PVal.nan, PVal.nan⟩

/-- C4 counterexample: two business lines with equal average loss
ratios come out of the code in descending name order
(`General Liability` before `Commercial Auto`), because pandas'
descending sort reverses the stable ascending sort; the claimed
name-ascending tie-break would require `Commercial Auto` first. -/
theorem c4_counterexample :
    line_avg [c4rowA, c4rowB] "reported_loss_ratio" "Commercial Auto"
        = line_avg [c4rowA, c4rowB] "reported_loss_ratio" "General Liability"
    ∧ ((comparison_df [c4rowA, c4rowB] "reported_loss_ratio").map (·.line_name))
        = ["General Liability", "Commercial Auto"]
    ∧ ["General Liability", "Commercial Auto"] ≠ ["Commercial Auto", "General Liability"] := by
  have hfA : List.filter (fun r : MonthlyRow => r.line_name == "Commercial Auto")
      [c4rowA, c4rowB] = [c4rowA] := by decide
  have hfB : List.filter (fun r : MonthlyRow => r.line_name == "General Liability")
      [c4rowA, c4rowB] = [c4rowB] := by decide
  have havgA : line_avg [c4rowA, c4rowB] "reported_loss_ratio" "Commercial Auto" = 1 := by
    simp only [line_avg, hfA]
    norm_num [c4rowA, lossColVal]
  have havgB : line_avg [c4rowA, c4rowB] "reported_loss_ratio" "General Liability" = 1 := by
    simp only [line_avg, hfB]
    norm_num [c4rowB, lossColVal]
  have hnames : List.insertionSort strLe (([c4rowA, c4rowB].map (·.line_name)).dedup)
      = ["Commercial Auto", "General Liability"] := by decide
  have hgroups : comparison_groups [c4rowA, c4rowB] "reported_loss_ratio"
      = [⟨"Commercial Auto", 1⟩, ⟨"General Liability", 1⟩] := by
    rw [comparison_groups, hnames]
    simp [havgA, havgB]
  refine ⟨havgA.trans havgB.symm, ?_, by decide⟩
  rw [comparison_df, hgroups]
  decide

/-- Agreement of two monthly tables on line names, premiums and the
loss column selected by the given methodology. -/
def compAgree (lrt : String) (a b : MonthlyRow) : Prop :=
  a.line_name = b.line_name ∧ a.earned_premium = b.earned_premium
    ∧ lossColVal lrt a = lossColVal lrt b

lemma forall₂_map_eq {α β γ : Type} {R : α → β → Prop} {f : α → γ} {g : β → γ}
    (hfg : ∀ a b, R a b → f a = g b) :
    ∀ {l₁ : List α} {l₂ : List β}, List.Forall₂ R l₁ l₂ → l₁.map f = l₂.map g := by
  intro l₁ l₂ h
  induction h with
  | nil => rfl
  | cons ha _ ih => simp [hfg _ _ ha, ih]

lemma forall₂_sum_map_eq {α β : Type} {R : α → β → Prop} {f : α → ℚ} {g : β → ℚ}
    (hfg : ∀ a b, R a b → f a = g b) :
    ∀ {l₁ : List α} {l₂ : List β}, List.Forall₂ R l₁ l₂ → (l₁.map f).sum = (l₂.map g).sum := by
  intro l₁ l₂ h
  induction h with
  | nil => rfl
  | cons ha _ ih => simp [hfg _ _ ha, ih]

lemma forall₂_filter {α β : Type} {R : α → β → Prop} {p : α → Bool} {q : β → Bool}
    (hpq : ∀ a b, R a b → p a = q b) :
    ∀ {l₁ : List α} {l₂ : List β}, List.Forall₂ R l₁ l₂ →
      List.Forall₂ R (l₁.filter p) (l₂.filter q) := by
  intro l₁ l₂ h
  induction h with
  | nil => exact List.Forall₂.nil
  | @cons a b t₁ t₂ ha _ ih =>
    simp only [List.filter_cons, ← hpq a b ha]
    by_cases hp : p a = true
    · simp only [if_pos hp]
      exact List.Forall₂.cons ha ih
    · simp only [if_neg hp]
      exact ih

/-- Two selections agreeing on names, premiums and the selected loss
column produce the same comparison table. -/
lemma comparison_df_congr (lrt : String) {l₁ l₂ : List MonthlyRow}
    (h : List.Forall₂ (compAgree lrt) l₁ l₂) :
    comparison_df l₁ lrt = comparison_df l₂ lrt := by
  have hnames : l₁.map (·.line_name) = l₂.map (·.line_name) :=
    forall₂_map_eq (fun a b hab => hab.1) h
  have havg : ∀ ln, line_avg l₁ lrt ln = line_avg l₂ lrt ln := by
    intro ln
    have hf : List.Forall₂ (compAgree lrt)
        (l₁.filter fun r => r.line_name == ln) (l₂.filter fun r => r.line_name == ln) :=
      forall₂_filter (fun a b hab => by rw [hab.1]) h
    simp only [line_avg]
    rw [forall₂_sum_map_eq (fun a b hab => hab.2.1) hf,
      forall₂_sum_map_eq (fun a b hab => hab.2.2) hf]
  unfold comparison_df comparison_groups
  rw [hnames]
  simp only [havg]

/-- C5: the comparison ranking under `methodology = developed` reads
only `line_name`, `earned_premium` and `developed_loss` — two tables
agreeing on those three columns but arbitrarily different in
`incurred_loss` produce identical rankings — and symmetrically the
ranking under `methodology = reported` reads only `incurred_loss`,
never `developed_loss`. -/
theorem c5_methodology_uses_only_selected_column (l₁ l₂ : List MonthlyRow) :
    (List.Forall₂ (fun a b : MonthlyRow => a.line_name = b.line_name
        ∧ a.earned_premium = b.earned_premium
        ∧ a.developed_loss = b.developed_loss) l₁ l₂ →
      comparison_df l₁ "developed_loss_ratio" = comparison_df l₂ "developed_loss_ratio")
    ∧ (List.Forall₂ (fun a b : MonthlyRow => a.line_name = b.line_name
        ∧ a.earned_premium = b.earned_premium
        ∧ a.incurred_loss = b.incurred_loss) l₁ l₂ →
      comparison_df l₁ "reported_loss_ratio" = comparison_df l₂ "reported_loss_ratio") := by
  constructor
  · intro h
    refine comparison_df_congr "developed_loss_ratio" (h.imp ?_)
    intro a b hab
    exact ⟨hab.1, hab.2.1, by simp [lossColVal, hab.2.2]⟩
  · intro h
    refine comparison_df_congr "reported_loss_ratio" (h.imp ?_)
    intro a b hab
    exact ⟨hab.1, hab.2.1, by simp [lossColVal, hab.2.2]⟩

/-- Baseline row for the C5 witness. -/
def c5rowA : MonthlyRow :=
  ⟨2022, 1, "January", "Commercial Auto", "West", 100, 50, 60, 202200 + 1,
    PVal.nan, PVal.nan⟩

/-- Same as `c5rowA` except for `incurred_loss`. -/
def c5rowB : MonthlyRow :=
  ⟨2022, 1, "January", "Commercial Auto", "West", 100, 999, 60, 202200 + 1,
    PVal.nan, PVal.nan⟩

/-- Same as `c5rowA` except for `developed_loss`. -/
def c5rowC : MonthlyRow :=
  ⟨2022, 1, "January", "Commercial Auto", "West", 100, 50, 777, 202200 + 1,
    PVal.nan, PVal.nan⟩

/-- Witness for C5: perturbing `incurred_loss` leaves the developed
ranking unchanged, and perturbing `developed_loss` leaves the reported
ranking unchanged. -/
theorem c5_methodology_uses_only_selected_column_witness :
    comparison_df [c5rowA] "developed_loss_ratio"
        = comparison_df [c5rowB] "developed_loss_ratio"
    ∧ comparison_df [c5rowA] "reported_loss_ratio"
        = comparison_df [c5rowC] "reported_loss_ratio" :=
  ⟨(c5_methodology_uses_only_selected_column [c5rowA] [c5rowB]).1
      (List.Forall₂.cons ⟨rfl, rfl, rfl⟩ List.Forall₂.nil),
    (c5_methodology_uses_only_selected_column [c5rowA] [c5rowC]).2
      (List.Forall₂.cons ⟨rfl, rfl, rfl⟩ List.Forall₂.nil)⟩

lemma map_product {α β γ δ : Type} (f : α → γ) (g : β → δ) :
    ∀ (l₁ : List α) (l₂ : List β),
      (l₁.map f) ×ˢ (l₂.map g) = (l₁ ×ˢ l₂).map fun p => (f p.1, g p.2) := by
  intro l₁ l₂
  induction l₁ with
  | nil => rfl
  | cons a l ih =>
    simp only [List.map_cons, List.product_cons, List.map_append, ih]
    congr 1
    simp [List.map_map, Function.comp_def]

lemma drawN_length : ∀ (n : Nat) (g : RngState), ((drawN g n).1).length = n := by
  intro n
  induction n with
  | zero => intro g; rfl
  | succ n ih =>
    intro g
    simp [drawN, ih]

lemma buildFactRows_keys (s : Nat) :
    ∀ (ts : List (DateRow × LineRow × RegionRow)) (ps us vs : List ℚ),
      ps.length = ts.length → us.length = ts.length → vs.length = ts.length →
      (buildFactRows s ts ps us vs).map
          (fun f => (f.date_key, f.business_line_key, f.region_key))
        = ts.map fun t => (t.1.date_key, t.2.1.business_line_key, t.2.2.region_key) := by
  intro ts
  induction ts with
  | nil => intro ps us vs _ _ _; rfl
  | cons t ts ih =>
    intro ps us vs hp hu hv
    cases ps with
    | nil => simp at hp
    | cons p ps =>
      cases us with
      | nil => simp at hu
      | cons u us =>
        cases vs with
        | nil => simp at hv
        | cons v vs =>
          simp only [buildFactRows, List.map_cons]
          rw [ih ps us vs (by simpa using hp) (by simpa using hu) (by simpa using hv)]

/-- The key triples of the generated fact table are exactly `df_keys`. -/
lemma fact_financials_keys (dd : List DateRow) (dl : List LineRow) (dr : List RegionRow)
    (g : RngState) :
    (fact_financials dd dl dr g).map (fun f => (f.date_key, f.business_line_key, f.region_key))
      = df_keys (dd.map (·.date_key)) (dl.map (·.business_line_key))
          (dr.map (·.region_key)) := by
  simp only [fact_financials]
  rw [buildFactRows_keys _ _ _ _ _ (by simp [drawN_length]) (by simp [drawN_length])
    (by simp [drawN_length])]
  unfold factInputs df_keys
  rw [map_product (fun l : LineRow => l.business_line_key) (fun r : RegionRow => r.region_key)
      dl dr,
    map_product (fun d : DateRow => d.date_key)
      (fun p : LineRow × RegionRow => (p.1.business_line_key, p.2.region_key)) dd (dl ×ˢ dr)]

/-- C6: for any configuration, the generated fact table has exactly
`|dates| * |lines| * |regions|` rows, its key triples are exactly the
`df_keys` cross-product in order, the triples are duplicate-free
whenever the three dimension key columns are, and a triple occurs in
`df_keys` exactly when each component occurs in its dimension key
column — no missing and no duplicate combinations. -/
theorem c6_fact_table_complete (dd : List DateRow) (dl : List LineRow) (dr : List RegionRow)
    (g : RngState)
    (h1 : (dd.map (·.date_key)).Nodup) (h2 : (dl.map (·.business_line_key)).Nodup)
    (h3 : (dr.map (·.region_key)).Nodup) :
    (fact_financials dd dl dr g).length = dd.length * (dl.length * dr.length)
    ∧ (fact_financials dd dl dr g).map (fun f => (f.date_key, f.business_line_key, f.region_key))
        = df_keys (dd.map (·.date_key)) (dl.map (·.business_line_key)) (dr.map (·.region_key))
    ∧ ((fact_financials dd dl dr g).map
        (fun f => (f.date_key, f.business_line_key, f.region_key))).Nodup
    ∧ ∀ d l r : Nat,
        (d, l, r) ∈ df_keys (dd.map (·.date_key)) (dl.map (·.business_line_key))
            (dr.map (·.region_key))
          ↔ d ∈ dd.map (·.date_key) ∧ l ∈ dl.map (·.business_line_key)
              ∧ r ∈ dr.map (·.region_key) := by
  have hkeys := fact_financials_keys dd dl dr g
  refine ⟨?_, hkeys, ?_, ?_⟩
  · have hlen := congrArg List.length hkeys
    rw [List.length_map] at hlen
    rw [hlen]
    unfold df_keys
    rw [List.length_product, List.length_product]
    simp
  · rw [hkeys]
    unfold df_keys
    exact h1.product (h2.product h3)
  · intro d l r
    unfold df_keys
    simp [List.mem_product]

/-- Date dimension for the C6 witness. -/
def c6dates : List DateRow :=
  [⟨20220101, 0, 2022, "Q1", 1, "January"⟩, ⟨20220201, 31, 2022, "Q1", 2, "February"⟩]

/-- Business-line dimension for the C6 witness. -/
def c6lines : List LineRow := [⟨1, "Commercial Auto"⟩, ⟨2, "General Liability"⟩]

/-- Region dimension for the C6 witness. -/
def c6regions : List RegionRow := [⟨1, "West"⟩]

/-- Witness for C6 on a concrete 2-date, 2-line, 1-region configuration. -/
theorem c6_fact_table_complete_witness :
    (fact_financials c6dates c6lines c6regions ⟨0⟩).length
        = c6dates.length * (c6lines.length * c6regions.length)
    ∧ (fact_financials c6dates c6lines c6regions ⟨0⟩).map
          (fun f => (f.date_key, f.business_line_key, f.region_key))
        = df_keys (c6dates.map (·.date_key)) (c6lines.map (·.business_line_key))
            (c6regions.map (·.region_key))
    ∧ ((fact_financials c6dates c6lines c6regions ⟨0⟩).map
        (fun f => (f.date_key, f.business_line_key, f.region_key))).Nodup
    ∧ ∀ d l r : Nat,
        (d, l, r) ∈ df_keys (c6dates.map (·.date_key)) (c6lines.map (·.business_line_key))
            (c6regions.map (·.region_key))
          ↔ d ∈ c6dates.map (·.date_key) ∧ l ∈ c6lines.map (·.business_line_key)
              ∧ r ∈ c6regions.map (·.region_key) :=
  c6_fact_table_complete c6dates c6lines c6regions ⟨0⟩ (by decide) (by decide) (by decide)
